import Mathlib

/-!
# Verification of the PKCE client flow and authorization middleware

Shallow embedding, in Lean 4, of the browser-side PKCE OAuth2 client
(`src/unnamed/part_002`, the UI api module), the client session bootstrap
(`src/ui/src/contexts/AuthContext.tsx`), the callback page
(`src/ui/src/pages/Callback.tsx`), the server-side request-context
middleware and controllers (`src/services/image/src/app.ts`,
`src/services/user/src/controllers/*`), and the PKCE challenge encoding
(`src/services/image/src/utils`, `generateCodeChallenge`).

External collaborators (the browser `fetch`, `sessionStorage`, Node's
`crypto` hash, the JS `URL` parser, the identity provider's token endpoint)
are modelled as explicit parameters or as small outcome types; everything
the repository's own code does — control flow, JavaScript truthiness of the
`||` and `!` operators on possibly-null strings, storage reads and writes,
header construction — is translated directly from the source.
-/

namespace PkceApp

/-! ## JavaScript truthiness helpers

`sessionStorage.getItem` returns `string | null`; JS `!s` is true for both
`null` and the empty string, and `a || b` falls through to `b` on either.
We model `string | null` as `Option String` and encode the truthiness rules
once, here. -/

/-- JS truthiness of a `string | null` value: `null` and `""` are falsy. -/
def truthy : Option String → Bool
  | none => false
  | some s => s ≠ ""

/-- JS `a || b` where `a : string | null` and `b : string`. -/
def jsOr (a : Option String) (b : String) : String :=
  match a with
  | some s => if s = "" then b else s
  | none => b

/-- JS `a || b` where both operands are `string | undefined`
(used for `decoded.name || decoded.preferred_username || decoded.username`). -/
def jsOrOpt (a b : Option String) : Option String :=
  match a with
  | some s => if s = "" then b else some s
  | none => b

/-! ## Tokens and decoded claims

A JWT is carried around as a raw string; the client decodes its middle
segment with `atob` + `JSON.parse` inside a `try`. We embed a token as its
raw string together with the outcome of that decode: `malformed` is the
caught-exception path, `ok c` the parsed payload. -/

/-- The `cognito:groups` claim may arrive as a single string or as a list
of strings (`src/services/user/src/index.ts` types declaration). -/
inductive GroupsClaim where
  | str (s : String)
  | list (l : List String)
  deriving DecidableEq, Repr

/-- Decoded JWT payload fields read by the client
(`AuthContext.tsx`, `Callback.tsx`). -/
structure Claims where
  exp : Option Nat := none
  sub : Option String := none
  email : Option String := none
  name : Option String := none
  preferred_username : Option String := none
  username : Option String := none
  groups : Option GroupsClaim := none
  email_verified : Option Bool := none
  deriving DecidableEq, Repr

/-- Outcome of `JSON.parse(atob(token.split('.')[1]))`. -/
inductive Decoded where
  | malformed
  | ok (c : Claims)
  deriving DecidableEq, Repr

/-- A stored token: its raw string (what gets sent in headers and tested
for truthiness) plus the decode outcome of its payload segment. -/
structure Jwt where
  raw : String
  payload : Decoded
  deriving DecidableEq, Repr

/-- JS truthiness of a stored token slot. -/
def truthyTok : Option Jwt → Bool
  | none => false
  | some t => t.raw ≠ ""

/-! ## Session storage

The five `sessionStorage` keys used by the api module
(`src/unnamed/part_002` lines 12–16). -/

/-- The client's `sessionStorage`, restricted to the five keys the api
module uses: the two token slots, and the three PKCE session fields. -/
structure SessionStorage where
  accessToken : Option Jwt := none
  idToken : Option Jwt := none
  codeVerifier : Option String := none
  oauthState : Option String := none
  redirectUri : Option String := none
  deriving DecidableEq, Repr

/-- `clearTokens()` (`part_002` lines 144–150): removes the two token keys
and, defensively, the three PKCE session keys. -/
def clearTokens (_st : SessionStorage) : SessionStorage :=
  { accessToken := none, idToken := none,
    codeVerifier := none, oauthState := none, redirectUri := none }

/-! ## exchangeCodeForTokens (`part_002` lines 82–126) -/

/-- The module-level Cognito configuration populated by
`loadCognitoConfig()`: `COGNITO_DOMAIN` and `COGNITO_CLIENT_ID`,
each `string | null`. -/
structure CognitoConfig where
  domain : Option String
  clientId : Option String
  deriving DecidableEq, Repr

/-- The form-encoded body of the POST to `{domain}/oauth2/token`
(`part_002` lines 102–108). -/
structure TokenRequest where
  grant_type : String
  client_id : String
  code : String
  redirect_uri : String
  code_verifier : String
  deriving DecidableEq, Repr

/-- The token endpoint's JSON body on success (`access_token`,
optional `id_token`, `expires_in`). -/
structure Tokens where
  access_token : String
  id_token : Option String
  expires_in : Nat
  deriving DecidableEq, Repr

/-- The provider's reply to the token POST: `response.ok` with a token
body, or a non-success HTTP status with an error text. -/
inductive ProviderResponse where
  | ok (t : Tokens)
  | httpError (errorText : String)
  deriving DecidableEq, Repr

/-- How a call of `exchangeCodeForTokens` terminates: one constructor per
`throw` site plus the success return. -/
inductive ExchangeOutcome where
  | configUnavailable
  | invalidState
  | exchangeFailed (message : String)
  | success (t : Tokens)
  deriving DecidableEq, Repr

/-- Result of a call of `exchangeCodeForTokens`: its outcome, the session
storage afterwards, and the request sent to the token endpoint (`none`
when the call failed before the POST). -/
structure ExchangeResult where
  outcome : ExchangeOutcome
  storage : SessionStorage
  request : Option TokenRequest
  deriving DecidableEq, Repr

/-- `exchangeCodeForTokens(code, state)` (`part_002` lines 82–126).
`provider` stands for the `fetch` of the token endpoint, `windowOrigin`
for `window.location.origin` (used by the `getRedirectUri()` fallback on
line 100). The guard on line 96 is
`!storedState || state !== storedState || !codeVerifier`, throwing the
single message `"Invalid state or missing code verifier"`; the three
session keys are removed (lines 122–124) only after a successful
response. -/
def exchangeCodeForTokens (provider : TokenRequest → ProviderResponse)
    (cfg : CognitoConfig) (windowOrigin : String)
    (st : SessionStorage) (code state : String) : ExchangeResult :=
  if ¬ (truthy cfg.domain && truthy cfg.clientId) then
    ⟨.configUnavailable, st, none⟩
  else
    let storedState := st.oauthState
    let codeVerifier := st.codeVerifier
    let storedRedirectUri := st.redirectUri
    if ¬ truthy storedState || state ≠ storedState.getD "" || ¬ truthy codeVerifier then
      ⟨.invalidState, st, none⟩
    else
      let redirectUri := jsOr storedRedirectUri (windowOrigin ++ "/callback")
      let req : TokenRequest :=
        { grant_type := "authorization_code",
          client_id := cfg.clientId.getD "",
          code := code,
          redirect_uri := redirectUri,
          code_verifier := codeVerifier.getD "" }
      match provider req with
      | .httpError errorText =>
          ⟨.exchangeFailed ("Token exchange failed: " ++ errorText), st, some req⟩
      | .ok tokens =>
          ⟨.success tokens,
           { st with codeVerifier := none, oauthState := none, redirectUri := none },
           some req⟩

/-! ## getCurrentUser / authenticatedFetch (`part_002` lines 161–214) -/

/-- The server's normalized identity, as returned by the profile endpoint
(`{sub, email, groups}`) and attached to requests by the middleware. -/
structure AuthUser where
  sub : String
  email : String
  groups : List String
  deriving DecidableEq, Repr

/-- Outcome of the client's `fetch` of `/v1/profile`: a thrown network
error, or a response with its `ok` flag and parsed JSON body
(`authenticated` flag and optional `user`). -/
inductive FetchOutcome where
  | threw
  | resp (ok : Bool) (authenticated : Bool) (user : Option AuthUser)
  deriving DecidableEq, Repr

/-- `getIdToken() || getAccessToken()` (`part_002` lines 163 and 201):
the ID token is preferred; an absent or empty ID token falls through to
the access token. -/
def selectToken (st : SessionStorage) : Option Jwt :=
  if truthyTok st.idToken then st.idToken else st.accessToken

/-- What a call of `getCurrentUser` did: the `Authorization` header value
it sent (`none` when it returned before fetching) and its return value. -/
structure GetUserCall where
  sentAuth : Option String
  result : Option AuthUser
  deriving DecidableEq, Repr

/-- `getCurrentUser()` (`part_002` lines 161–194). `profileApi` stands for
the `fetch` of `/v1/profile`, keyed by the `Authorization` header that was
sent. The function returns `null` — never throws — on a missing token, a
non-ok response, a body with `authenticated` false, or a network error;
it performs no inspection of the token beyond JS truthiness. -/
def getCurrentUser (profileApi : String → FetchOutcome)
    (st : SessionStorage) : GetUserCall :=
  let token := selectToken st
  if ¬ truthyTok token then ⟨none, none⟩
  else
    let hdr := "Bearer " ++ (token.map Jwt.raw).getD ""
    match profileApi hdr with
    | .threw => ⟨some hdr, none⟩
    | .resp ok authenticated user =>
        if ¬ ok then ⟨some hdr, none⟩
        else if authenticated then ⟨some hdr, user⟩
        else ⟨some hdr, none⟩

/-- What a call of `authenticatedFetch` did: threw the
`"No access token or ID token available"` error, or delegated to `fetch`
with the given `Authorization` header set. -/
inductive AuthFetchCall where
  | noCredential
  | request (authHeader : String)
  deriving DecidableEq, Repr

/-- `authenticatedFetch(url, options)` (`part_002` lines 196–214),
restricted to its credential handling: selects `getIdToken() ||
getAccessToken()`, throws when no token is present, otherwise sets the
bearer header and delegates. No other inspection of the token occurs. -/
def authenticatedFetch (st : SessionStorage) : AuthFetchCall :=
  let token := selectToken st
  if ¬ truthyTok token then .noCredential
  else .request ("Bearer " ++ (token.map Jwt.raw).getD "")

/-! ## Client identity derivation (`AuthContext.tsx`, `Callback.tsx`) -/

/-- `decoded['cognito:groups'] || []` (`AuthContext.tsx` line 56,
`Callback.tsx` line 54): an absent claim — or, by JS truthiness, an empty
string — becomes the empty list; any other value is kept as-is, a string
staying a string. -/
def clientGroups : Option GroupsClaim → GroupsClaim
  | none => .list []
  | some (.str s) => if s = "" then .list [] else .str s
  | some (.list l) => .list l

/-- The client-side `User` object built from a decoded ID token
(`AuthContext.tsx` lines 52–58, `Callback.tsx` lines 50–56). -/
structure ClientUser where
  sub : Option String
  email : Option String
  name : Option String
  groups : GroupsClaim
  email_verified : Option Bool
  deriving DecidableEq, Repr

/-- Construction of the provisional user from decoded ID-token claims:
`name: decoded.name || decoded.preferred_username || decoded.username`,
`groups: decoded['cognito:groups'] || []`. -/
def userFromClaims (c : Claims) : ClientUser :=
  { sub := c.sub,
    email := c.email,
    name := jsOrOpt c.name (jsOrOpt c.preferred_username c.username),
    groups := clientGroups c.groups,
    email_verified := c.email_verified }

/-! ## Session bootstrap (`AuthContext.tsx` lines 27–126) -/

/-- Outcome of the `getCurrentUser()` call made during bootstrap:
the promise rejected (`.catch` branch), or it resolved with
`userData` (`null` modelled as `returned none`). -/
inductive ProfileOutcome where
  | threw
  | returned (u : Option ClientUser)
  deriving DecidableEq, Repr

/-- The state the bootstrap effect leaves behind: the `user` React state
and the session storage (tokens possibly purged). -/
structure InitResult where
  user : Option ClientUser
  storage : SessionStorage
  deriving DecidableEq, Repr

/-- The expiry guard `if (exp && exp < now)` (`AuthContext.tsx` lines
43–45 and 75–77): by JS truthiness a missing `exp` — or an `exp` equal to
`0` — never triggers the purge. -/
def expPurge (c : Claims) (now : Nat) : Bool :=
  match c.exp with
  | none => false
  | some e => e ≠ 0 && e < now

/-- The mount effect of `AuthProvider` (`AuthContext.tsx` lines 27–126):
reads both token slots; with an ID token present, decodes it (purging all
tokens on a decode error or on a triggered expiry guard), otherwise builds
the provisional user from its claims and shows it, then reconciles with
`getCurrentUser()` — keeping the provisional user when that call fails or
returns nothing. With only an access token, the same decode/expiry check
runs but no provisional user can be built, so the API call alone decides
the user. -/
def initAuth (st : SessionStorage) (now : Nat) (po : ProfileOutcome) : InitResult :=
  if truthyTok st.accessToken || truthyTok st.idToken then
    if truthyTok st.idToken then
      match (st.idToken.map Jwt.payload).getD .malformed with
      | .malformed => ⟨none, clearTokens st⟩
      | .ok c =>
          if expPurge c now then ⟨none, clearTokens st⟩
          else
            let userFromToken := userFromClaims c
            match po with
            | .returned (some u) => ⟨some u, st⟩
            | .returned none => ⟨some userFromToken, st⟩
            | .threw => ⟨some userFromToken, st⟩
    else
      match (st.accessToken.map Jwt.payload).getD .malformed with
      | .malformed => ⟨none, clearTokens st⟩
      | .ok c =>
          if expPurge c now then ⟨none, clearTokens st⟩
          else
            match po with
            | .returned (some u) => ⟨some u, st⟩
            | .returned none => ⟨none, st⟩
            | .threw => ⟨none, st⟩
  else ⟨none, st⟩

/-! ## Server side: request-context extraction and route gating

`src/services/image/src/app.ts` installs a middleware that reads the
`x-amzn-request-context` header and, inside a `try`, parses it as JSON,
attaching the result as `req.apiGateway.event.requestContext`; a parse
error is caught and logged, leaving the request without the field. -/

/-- The claims map forwarded by the gateway's authorizer
(`src/services/user/src/index.ts` types declaration): optional `sub`,
`email` and `cognito:groups`. -/
structure ForwardedClaims where
  sub : Option String := none
  email : Option String := none
  groups : Option GroupsClaim := none
  deriving DecidableEq, Repr

/-- The parsed request context: an optional `authorizer` object carrying
an optional `claims` map. -/
structure RequestContext where
  claims : Option ForwardedClaims := none
  deriving DecidableEq, Repr

/-- The `x-amzn-request-context` header as received: absent, present but
not valid JSON (carrying its raw text), or syntactically well-formed. -/
inductive HeaderVal where
  | absent
  | malformed (raw : String)
  | wellFormed (ctx : RequestContext)
  deriving DecidableEq, Repr

/-- The request-context middleware (`app.ts` lines 32–56): with no header,
nothing is attached; with a header, `JSON.parse` runs inside a `try` whose
`catch` only logs, so a malformed header also attaches nothing and the
middleware never throws. -/
def extractRequestContext : HeaderVal → Option RequestContext
  | .absent => none
  | .malformed _ => none
  | .wellFormed ctx => some ctx

/-- Modelled from the spec: the server-side normalization of the
`cognito:groups` claim (part of the `middleware/auth` module, whose source
is not in the repository snapshot): "a `cognito:groups` field that may be
a single string or a list of strings, normalized to a set of strings". -/
def normalizeGroups : Option GroupsClaim → List String
  | none => []
  | some (.str s) => [s]
  | some (.list l) => l

/-- Modelled from the spec: the `middleware/auth` module exporting
`attachAuth`, `requireAuth` and `requireGroup` is imported by
`adminRoutes.ts` and typed in `index.ts` but its source is not in the
repository snapshot. Per the spec, `attachAuth` reads the forwarded
`authorizer.claims` map and, when present and well-formed, attaches a
normalized `{sub, email, groups}` identity — the `cognito:groups` field,
a single string or a list, normalized to a set of strings; otherwise it
leaves the identity absent, and it never throws. -/
def attachAuth (ctx : Option RequestContext) : Option AuthUser :=
  match ctx with
  | none => none
  | some c =>
      match c.claims with
      | none => none
      | some cl =>
          some { sub := cl.sub.getD "",
                 email := cl.email.getD "",
                 groups := normalizeGroups cl.groups }

/-- HTTP responses produced by the modelled routes. -/
inductive RouteResponse where
  | profileOk (sub email : String) (groups : List String)
  | pingOk
  | authRequired401
  | forbidden403
  deriving DecidableEq, Repr

/-- The HTTP status carried by each modelled response. -/
def RouteResponse.status : RouteResponse → Nat
  | .profileOk _ _ _ => 200
  | .pingOk => 200
  | .authRequired401 => 401
  | .forbidden403 => 403

/-- Modelled from the spec: `requireAuth` (source not in the snapshot)
fails the request with 401 `{error: "Authentication required"}` when no
identity was attached; otherwise it passes through to the next handler. -/
def requireAuth (auth : Option AuthUser) (next : AuthUser → RouteResponse) :
    RouteResponse :=
  match auth with
  | none => .authRequired401
  | some a => next a

/-- Modelled from the spec: `requireGroup(name)` (source not in the
snapshot) fails with 403 Forbidden when the attached identity's group set
does not contain `name`; otherwise it passes through. -/
def requireGroup (name : String) (a : AuthUser)
    (next : AuthUser → RouteResponse) : RouteResponse :=
  if name ∈ a.groups then next a else .forbidden403

/-- `getProfile` (`profileController.ts` lines 29 onward, from the
source): answers with the attached identity when `req.auth` is set and
with 401 `{error: "Authentication required"}` otherwise. -/
def getProfile (auth : Option AuthUser) : RouteResponse :=
  match auth with
  | some a => .profileOk a.sub a.email a.groups
  | none => .authRequired401

/-- The `/v1/profile` request path: request-context extraction
(`app.ts`), claim attachment, then the profile controller. -/
def profileRoute (hdr : HeaderVal) : RouteResponse :=
  getProfile (attachAuth (extractRequestContext hdr))

/-- The admin route chain `attachAuth, requireAuth,
requireGroup("administrators")` in front of the `/ping` handler
(`adminRoutes.ts` lines 7–15). -/
def adminPingRoute (hdr : HeaderVal) : RouteResponse :=
  requireAuth (attachAuth (extractRequestContext hdr)) fun a =>
    requireGroup "administrators" a fun _ => .pingOk

/-! ## getConfig (`configController.ts` lines 5–34) -/

/-- The server-side Cognito configuration after a successful
`loadConfig()` + `getJwtConfig()` (domain, client id, region). -/
structure CogSrvConfig where
  domain : String
  clientId : String
  region : String
  deriving DecidableEq, Repr

/-- Outcome of `new URL(s).origin`: the constructor throws on a string
that is not a URL, otherwise yields the URL's origin. -/
inductive UrlOutcome where
  | threw
  | parsed (origin : String)
  deriving DecidableEq, Repr

/-- The response of `GET /v1/config`: the JSON body on success, or the
500 `{error: "Failed to load configuration"}` produced by the `catch`. -/
inductive ConfigResponse where
  | ok (cognitoDomain cognitoClientId cognitoRegion redirectUri : String)
  | error500
  deriving DecidableEq, Repr

/-- `getConfig` (`configController.ts`). `cfg` is the outcome of the SSM
config load (`none` = it threw); `urlOrigin` stands for the JS `URL`
parser. The controller computes
`origin = req.headers.origin || req.headers.referer || ""` and
`redirectUri = origin ? new URL(origin).origin + "/callback" : ""`;
a `URL` constructor throw lands in the same `catch` as a config-load
failure, producing the 500 response. -/
def getConfig (urlOrigin : String → UrlOutcome) (cfg : Option CogSrvConfig)
    (originHdr refererHdr : Option String) : ConfigResponse :=
  match cfg with
  | none => .error500
  | some c =>
      let origin := jsOr originHdr (jsOr refererHdr "")
      if origin = "" then .ok c.domain c.clientId c.region ""
      else
        match urlOrigin origin with
        | .threw => .error500
        | .parsed base => .ok c.domain c.clientId c.region (base ++ "/callback")

/-! ## PKCE challenge encoding (`src/services/image/src/utils`,
`generateCodeChallenge`)

The source computes
`createHash("sha256").update(v).digest("base64")
  .replace(/\+/g,"-").replace(/\//g,"_").replace(/=/g,"")`.
We embed the base64 encoder over the digest's byte list, the three global
single-character replacements as map/filter over the character list, and —
independently, from the spec's words — a direct base64url encoder using
the URL-safe alphabet with no padding, to compare the two. -/

/-- The standard base64 alphabet, indexed 0–63
(`A–Z`, `a–z`, `0–9`, `+`, `/`). -/
def stdAlphabet (n : Nat) : Char :=
  if n < 26 then Char.ofNat (65 + n)
  else if n < 52 then Char.ofNat (97 + (n - 26))
  else if n < 62 then Char.ofNat (48 + (n - 52))
  else if n = 62 then '+'
  else '/'

/-- The URL-safe base64 alphabet, indexed 0–63
(`A–Z`, `a–z`, `0–9`, `-`, `_`). -/
def urlAlphabet (n : Nat) : Char :=
  if n < 26 then Char.ofNat (65 + n)
  else if n < 52 then Char.ofNat (97 + (n - 26))
  else if n < 62 then Char.ofNat (48 + (n - 52))
  else if n = 62 then '-'
  else '_'

/-- Base64 encoding of a byte list over a given alphabet: three bytes
become four sextet characters; a final group of one or two bytes is
padded with `=` when `pad` is set. -/
def b64Chars (alpha : Nat → Char) (pad : Bool) : List Nat → List Char
  | [] => []
  | [b0] =>
      [alpha (b0 / 4), alpha (b0 % 4 * 16)] ++ (if pad then ['=', '='] else [])
  | [b0, b1] =>
      [alpha (b0 / 4), alpha (b0 % 4 * 16 + b1 / 16), alpha (b1 % 16 * 4)] ++
        (if pad then ['='] else [])
  | b0 :: b1 :: b2 :: rest =>
      alpha (b0 / 4) :: alpha (b0 % 4 * 16 + b1 / 16) ::
        alpha (b1 % 16 * 4 + b2 / 64) :: alpha (b2 % 64) ::
        b64Chars alpha pad rest

/-- `digest("base64")`: standard alphabet, with `=` padding. -/
def base64Encode (bytes : List Nat) : List Char :=
  b64Chars stdAlphabet true bytes

/-- The spec's independent description of base64url: URL-safe alphabet,
no padding. -/
def base64urlEncode (bytes : List Nat) : List Char :=
  b64Chars urlAlphabet false bytes

/-- JS `.replace(/a/g, b)` for single characters, over the character
list. -/
def replaceChar (a b : Char) (l : List Char) : List Char :=
  l.map fun ch => if ch = a then b else ch

/-- JS `.replace(/a/g, "")` for a single character: removal. -/
def removeChar (a : Char) (l : List Char) : List Char :=
  l.filter fun ch => ch ≠ a

/-- `generateCodeChallenge` (`src/services/image/src/utils`, the PKCE
helper): the base64 digest string with `+` replaced by `-`, `/` by `_`,
and `=` removed. The SHA-256 digest itself is Node's `crypto` primitive;
the function is embedded over its output byte list. -/
def generateCodeChallenge (digest : List Nat) : List Char :=
  removeChar '=' (replaceChar '/' '_' (replaceChar '+' '-' (base64Encode digest)))

/-! ## Lemmas: base64 replacement chain versus direct base64url -/

/-- The single-character substitution performed by `.replace(/\+/g,"-")`. -/
def substPlus (c : Char) : Char := if c = '+' then '-' else c

/-- The single-character substitution performed by `.replace(/\//g,"_")`. -/
def substSlash (c : Char) : Char := if c = '/' then '_' else c

/-- On every sextet index, the two substitutions turn the standard
alphabet character into the URL-safe one, and the latter is never the
padding character. -/
lemma alpha_subst : ∀ n < 64,
    substSlash (substPlus (stdAlphabet n)) = urlAlphabet n ∧ urlAlphabet n ≠ '=' := by
  decide

/-- The padding character is untouched by both substitutions. -/
lemma subst_eq_char : substSlash (substPlus '=') = '=' := by decide

/-- Core equivalence: substituting the alphabet and stripping the padding
of a standard base64 encoding yields the direct URL-safe, unpadded
encoding, for every list of bytes. -/
theorem b64_subst_eq : ∀ (bytes : List Nat), (∀ b ∈ bytes, b < 256) →
    removeChar '=' ((b64Chars stdAlphabet true bytes).map
        (fun c => substSlash (substPlus c)))
      = b64Chars urlAlphabet false bytes
  | [], _ => rfl
  | [b0], h => by
      have hb0 : b0 < 256 := h b0 (by simp)
      have h1 := alpha_subst (b0 / 4) (by omega)
      have h2 := alpha_subst (b0 % 4 * 16) (by omega)
      simp [b64Chars, removeChar, subst_eq_char, h1.1, h1.2, h2.1, h2.2]
  | [b0, b1], h => by
      have hb0 : b0 < 256 := h b0 (by simp)
      have hb1 : b1 < 256 := h b1 (by simp)
      have h1 := alpha_subst (b0 / 4) (by omega)
      have h2 := alpha_subst (b0 % 4 * 16 + b1 / 16) (by omega)
      have h3 := alpha_subst (b1 % 16 * 4) (by omega)
      simp [b64Chars, removeChar, subst_eq_char, h1.1, h1.2, h2.1, h2.2, h3.1, h3.2]
  | b0 :: b1 :: b2 :: rest, h => by
      have hb0 : b0 < 256 := h b0 (by simp)
      have hb1 : b1 < 256 := h b1 (by simp)
      have hb2 : b2 < 256 := h b2 (by simp)
      have h1 := alpha_subst (b0 / 4) (by omega)
      have h2 := alpha_subst (b0 % 4 * 16 + b1 / 16) (by omega)
      have h3 := alpha_subst (b1 % 16 * 4 + b2 / 64) (by omega)
      have h4 := alpha_subst (b2 % 64) (by omega)
      have ih := b64_subst_eq rest (fun b hb => h b (by simp [hb]))
      simp only [b64Chars, List.map_cons]
      simp only [removeChar, List.filter_cons] at ih ⊢
      simp [h1.1, h1.2, h2.1, h2.2, h3.1, h3.2, h4.1, h4.2]
      simpa using ih

/-! ## Claim theorems -/

/-- C9: For every generated PKCE pair, the code challenge equals the
base64url encoding (with `+` mapped to `-`, `/` to `_`, and padding `=`
removed) of the SHA-256 digest of the code verifier: the source's
standard-base64-then-replace chain coincides with a direct URL-safe,
unpadded base64 encoding of the digest bytes. -/
theorem generateCodeChallenge_is_base64url (digest : List Nat)
    (h : ∀ b ∈ digest, b < 256) :
    generateCodeChallenge digest = base64urlEncode digest := by
  unfold generateCodeChallenge base64Encode base64urlEncode replaceChar
  rw [List.map_map]
  exact b64_subst_eq digest h

/-- Witness for C9: the equivalence evaluated at a concrete digest. -/
theorem generateCodeChallenge_is_base64url_witness :
    generateCodeChallenge [251, 239, 190, 77] = base64urlEncode [251, 239, 190, 77] :=
  generateCodeChallenge_is_base64url [251, 239, 190, 77] (by decide)

/-- C2: `exchangeCodeForTokens(code, state)` fails with the one
`InvalidState` error — leaving the storage untouched and sending no
request — whenever the provided `state` differs from the stored one, and
identically (the very same result value) when no stored state or no
stored code verifier exists, so nothing reveals which field failed. -/
theorem exchange_invalidState (provider : TokenRequest → ProviderResponse)
    (cfg : CognitoConfig) (w : String) (st : SessionStorage) (code state : String)
    (hd : truthy cfg.domain = true) (hc : truthy cfg.clientId = true)
    (hbad : truthy st.oauthState = false ∨ state ≠ st.oauthState.getD "" ∨
      truthy st.codeVerifier = false) :
    exchangeCodeForTokens provider cfg w st code state =
      { outcome := .invalidState, storage := st, request := none } := by
  rcases hbad with h | h | h <;> simp [exchangeCodeForTokens, hd, hc, h]

/-- Witness for C2: a state mismatch, a missing stored state, and a
missing verifier all produce the identical `InvalidState` result. -/
theorem exchange_invalidState_witness :
    exchangeCodeForTokens (fun _ => .httpError "e") ⟨some "d", some "c"⟩
        "https://app.example" ⟨none, none, some "v", some "X", none⟩ "abc" "Y" =
      { outcome := .invalidState,
        storage := ⟨none, none, some "v", some "X", none⟩, request := none } ∧
    exchangeCodeForTokens (fun _ => .httpError "e") ⟨some "d", some "c"⟩
        "https://app.example" ⟨none, none, none, none, none⟩ "abc" "X" =
      { outcome := .invalidState,
        storage := ⟨none, none, none, none, none⟩, request := none } ∧
    exchangeCodeForTokens (fun _ => .httpError "e") ⟨some "d", some "c"⟩
        "https://app.example" ⟨none, none, none, some "X", none⟩ "abc" "X" =
      { outcome := .invalidState,
        storage := ⟨none, none, none, some "X", none⟩, request := none } :=
  ⟨exchange_invalidState _ _ _ _ _ _ (by decide) (by decide)
      (Or.inr (Or.inl (by decide))),
   exchange_invalidState _ _ _ _ _ _ (by decide) (by decide)
      (Or.inl (by decide)),
   exchange_invalidState _ _ _ _ _ _ (by decide) (by decide)
      (Or.inr (Or.inr (by decide)))⟩

/-- Counterexample to C3: with the stored state matching and the verifier
present but the stored `redirectUri` absent, the exchange is not
rejected — it proceeds and succeeds, the fallback
`window.location.origin + "/callback"` standing in for the missing
field. -/
theorem exchange_missing_redirectUri_not_rejected :
    exchangeCodeForTokens (fun _ => .ok ⟨"at", some "it", 3600⟩)
        ⟨some "d", some "c"⟩ "https://app.example"
        ⟨none, none, some "v", some "X", none⟩ "abc" "X" =
      { outcome := .success ⟨"at", some "it", 3600⟩,
        storage := ⟨none, none, none, none, none⟩,
        request := some ⟨"authorization_code", "c", "abc",
          "https://app.example/callback", "v"⟩ } := by
  rfl

/-- C3 (amended): the exchange requires only the stored state (present
and equal to the provided one) and the stored code verifier; an absent
stored `redirectUri` does not cause rejection — the validation passes,
and the token request carries `window.location.origin + "/callback"` as
its redirect URI. -/
theorem exchange_validation_fields (provider : TokenRequest → ProviderResponse)
    (cfg : CognitoConfig) (w : String) (st : SessionStorage) (code state : String)
    (hd : truthy cfg.domain = true) (hc : truthy cfg.clientId = true)
    (hs : truthy st.oauthState = true) (hmatch : state = st.oauthState.getD "")
    (hv : truthy st.codeVerifier = true) (hr : st.redirectUri = none) :
    (exchangeCodeForTokens provider cfg w st code state).outcome ≠ .invalidState ∧
    (exchangeCodeForTokens provider cfg w st code state).request =
      some { grant_type := "authorization_code", client_id := cfg.clientId.getD "",
             code := code, redirect_uri := w ++ "/callback",
             code_verifier := st.codeVerifier.getD "" } := by
  simp only [exchangeCodeForTokens, hd, hc, hs, hmatch, hv, hr]
  simp only [Bool.not_true, Bool.false_or, decide_not]
  constructor
  · cases provider _ <;> simp [jsOr]
  · cases provider _ <;> simp [jsOr]

/-- Witness for C3 (amended): concrete exchange with no stored redirect
URI passes validation and uses the window-origin fallback. -/
theorem exchange_validation_fields_witness :
    (exchangeCodeForTokens (fun _ => .ok ⟨"at", none, 3600⟩) ⟨some "d", some "c"⟩
        "https://app.example" ⟨none, none, some "v", some "X", none⟩
        "abc" "X").outcome ≠ .invalidState ∧
    (exchangeCodeForTokens (fun _ => .ok ⟨"at", none, 3600⟩) ⟨some "d", some "c"⟩
        "https://app.example" ⟨none, none, some "v", some "X", none⟩
        "abc" "X").request =
      some ⟨"authorization_code", "c", "abc", "https://app.example/callback", "v"⟩ :=
  exchange_validation_fields _ _ _ _ _ _ (by decide) (by decide) (by decide)
    (by decide) (by decide) rfl

/-- Counterexample to C4: when the provider answers the token POST with a
non-success HTTP status, `exchangeCodeForTokens` throws before reaching
the `removeItem` calls, so all three PKCE session fields are still in
storage afterwards. -/
theorem exchange_failure_keeps_session :
    exchangeCodeForTokens (fun _ => .httpError "invalid_grant")
        ⟨some "d", some "c"⟩ "https://app.example"
        ⟨none, none, some "v", some "X", some "https://app.example/callback"⟩
        "abc" "X" =
      { outcome := .exchangeFailed "Token exchange failed: invalid_grant",
        storage := ⟨none, none, some "v", some "X", some "https://app.example/callback"⟩,
        request := some ⟨"authorization_code", "c", "abc",
          "https://app.example/callback", "v"⟩ } := by
  rfl

/-- C4 (amended): the PKCE session fields are consumed exactly once only
on success — a successful exchange leaves `codeVerifier`, `state` and
`redirectUri` all absent, while a provider failure leaves the storage
exactly as it was (the fields are removed later only by `clearTokens`). -/
theorem exchange_session_cleared_iff_success
    (provider : TokenRequest → ProviderResponse) (cfg : CognitoConfig)
    (w : String) (st : SessionStorage) (code state : String) :
    ((∃ t, (exchangeCodeForTokens provider cfg w st code state).outcome = .success t) →
      (exchangeCodeForTokens provider cfg w st code state).storage.codeVerifier = none ∧
      (exchangeCodeForTokens provider cfg w st code state).storage.oauthState = none ∧
      (exchangeCodeForTokens provider cfg w st code state).storage.redirectUri = none) ∧
    ((∃ m, (exchangeCodeForTokens provider cfg w st code state).outcome = .exchangeFailed m) →
      (exchangeCodeForTokens provider cfg w st code state).storage = st) := by
  unfold exchangeCodeForTokens
  dsimp only
  split
  · simp
  · split
    · simp
    · cases provider _ <;> simp

/-- Witness for C4 (amended): a concrete success clears the three fields
and a concrete provider failure leaves the storage unchanged. -/
theorem exchange_session_cleared_iff_success_witness :
    ((exchangeCodeForTokens (fun _ => .ok ⟨"at", none, 3600⟩) ⟨some "d", some "c"⟩
        "https://app.example" ⟨none, none, some "v", some "X", some "r"⟩
        "abc" "X").storage.codeVerifier = none ∧
     (exchangeCodeForTokens (fun _ => .ok ⟨"at", none, 3600⟩) ⟨some "d", some "c"⟩
        "https://app.example" ⟨none, none, some "v", some "X", some "r"⟩
        "abc" "X").storage.oauthState = none ∧
     (exchangeCodeForTokens (fun _ => .ok ⟨"at", none, 3600⟩) ⟨some "d", some "c"⟩
        "https://app.example" ⟨none, none, some "v", some "X", some "r"⟩
        "abc" "X").storage.redirectUri = none) ∧
    (exchangeCodeForTokens (fun _ => .httpError "boom") ⟨some "d", some "c"⟩
        "https://app.example" ⟨none, none, some "v", some "X", some "r"⟩
        "abc" "X").storage = ⟨none, none, some "v", some "X", some "r"⟩ :=
  ⟨(exchange_session_cleared_iff_success _ _ _ _ _ _).1 ⟨⟨"at", none, 3600⟩, rfl⟩,
   (exchange_session_cleared_iff_success _ _ _ _ _ _).2
     ⟨"Token exchange failed: boom", rfl⟩⟩

/-- Counterexample to C1: with an ID token whose decoded `exp` claim is
`1` — in the past for any clock reading such as `1000` — stored in the
session, `getCurrentUser` still sends `Authorization: Bearer tok` to the
profile endpoint and `authenticatedFetch` still attaches the same bearer
header rather than failing as if no credential existed: neither function
ever reads the token's `exp`. -/
theorem expired_token_still_attached :
    (1 : Nat) < 1000 ∧
    ({ idToken := some ⟨"tok", .ok { exp := some 1 }⟩ } : SessionStorage).idToken
      = some ⟨"tok", .ok { exp := some 1 }⟩ ∧
    (getCurrentUser (fun _ => .resp false false none)
        { idToken := some ⟨"tok", .ok { exp := some 1 }⟩ }).sentAuth
      = some "Bearer tok" ∧
    authenticatedFetch { idToken := some ⟨"tok", .ok { exp := some 1 }⟩ }
      = .request "Bearer tok" :=
  ⟨by decide, rfl, rfl, rfl⟩

/-- C1 (amended): `getCurrentUser` and `authenticatedFetch` never inspect
the stored token's `exp` claim. They behave as if no credential existed
exactly when no (nonempty) token is stored; whenever a token is stored —
expired or not — both attach it verbatim as `Bearer <raw>`. Expired
tokens are purged only by the `AuthContext` bootstrap. -/
theorem token_attach_ignores_exp (profileApi : String → FetchOutcome)
    (st : SessionStorage) :
    (truthyTok (selectToken st) = false →
      getCurrentUser profileApi st = ⟨none, none⟩ ∧
      authenticatedFetch st = .noCredential) ∧
    (∀ t : Jwt, selectToken st = some t → t.raw ≠ "" →
      (getCurrentUser profileApi st).sentAuth = some ("Bearer " ++ t.raw) ∧
      authenticatedFetch st = .request ("Bearer " ++ t.raw)) := by
  constructor
  · intro h
    constructor <;> simp [getCurrentUser, authenticatedFetch, h]
  · intro t ht hraw
    constructor
    · unfold getCurrentUser
      simp only [ht, truthyTok, Option.map_some', Option.getD_some, ne_eq, hraw]
      simp only [not_false_eq_true, decide_True, Bool.not_true, Bool.false_eq_true,
        if_false]
      cases profileApi ("Bearer " ++ t.raw) with
      | threw => simp
      | resp ok authenticated user => cases ok <;> cases authenticated <;> simp
    · unfold authenticatedFetch
      simp [ht, truthyTok, hraw]

/-- Witness for C1 (amended): the empty storage yields no request and the
`NoCredential` error; a stored token is attached verbatim. -/
theorem token_attach_ignores_exp_witness :
    (getCurrentUser (fun _ => .threw) { } = ⟨none, none⟩ ∧
     authenticatedFetch { } = .noCredential) ∧
    ((getCurrentUser (fun _ => .threw)
        { accessToken := some ⟨"acc", .ok { exp := some 5 }⟩ }).sentAuth
      = some "Bearer acc" ∧
     authenticatedFetch { accessToken := some ⟨"acc", .ok { exp := some 5 }⟩ }
      = .request "Bearer acc") :=
  ⟨(token_attach_ignores_exp _ _).1 (by decide),
   (token_attach_ignores_exp _ _).2 ⟨"acc", .ok { exp := some 5 }⟩ rfl (by decide)⟩

/-- Counterexample to C5: the client-side decoding does not normalize a
single-string `cognito:groups` claim — `decoded['cognito:groups'] || []`
leaves the string `"administrators"` as a string, while the singleton
list stays a list, so the two inputs do not yield the same value in the
derived identity. -/
theorem clientGroups_string_list_differ :
    clientGroups (some (.str "administrators")) = .str "administrators" ∧
    clientGroups (some (.list ["administrators"])) = .list ["administrators"] ∧
    clientGroups (some (.str "administrators")) ≠
      clientGroups (some (.list ["administrators"])) :=
  ⟨rfl, rfl, by decide⟩

/-- C5 (amended): only the server-side claim extraction normalizes the
`groups` claim — a nonempty single string and its singleton list map to
the same set of groups there — while the client-side ID-token decoding
passes the claim through unchanged (string stays string, list stays
list), so the two derivations agree in shape only when the claim arrives
as a list. -/
theorem groups_normalization (s : String) (hs : s ≠ "") :
    normalizeGroups (some (.str s)) = normalizeGroups (some (.list [s])) ∧
    clientGroups (some (.str s)) = .str s ∧
    clientGroups (some (.list [s])) = .list [s] := by
  refine ⟨rfl, ?_, rfl⟩
  simp [clientGroups, hs]

/-- Witness for C5 (amended): the normalization agreement and the
client-side shape preservation at `"administrators"`. -/
theorem groups_normalization_witness :
    normalizeGroups (some (.str "administrators")) =
      normalizeGroups (some (.list ["administrators"])) ∧
    clientGroups (some (.str "administrators")) = .str "administrators" ∧
    clientGroups (some (.list ["administrators"])) = .list ["administrators"] :=
  groups_normalization "administrators" (by decide)

/-- C6: a forwarded request-context header that exists but holds
malformed JSON never makes the claim-extraction middleware throw: the
request context stays unattached, no identity is attached, and the
protected profile route answers 401 — the very same response as when no
forwarded header exists at all. -/
theorem malformed_context_gives_401 (raw : String) :
    extractRequestContext (.malformed raw) = none ∧
    attachAuth (extractRequestContext (.malformed raw)) = none ∧
    profileRoute (.malformed raw) = .authRequired401 ∧
    (profileRoute (.malformed raw)).status = 401 ∧
    profileRoute (.malformed raw) = profileRoute .absent :=
  ⟨rfl, rfl, rfl, rfl, rfl⟩

/-- C7: on the admin chain `attachAuth, requireAuth,
requireGroup("administrators")`, every attached identity whose group set
lacks `"administrators"` is answered 403 Forbidden, and every identity
whose group set contains it passes through to the ping handler. -/
theorem requireGroup_administrators (hdr : HeaderVal) (a : AuthUser)
    (hatt : attachAuth (extractRequestContext hdr) = some a) :
    ("administrators" ∈ a.groups → adminPingRoute hdr = .pingOk) ∧
    ("administrators" ∉ a.groups → adminPingRoute hdr = .forbidden403) := by
  unfold adminPingRoute requireAuth requireGroup
  rw [hatt]
  constructor <;> intro h <;> simp [h]

/-- Witness for C7: with forwarded groups `["users","administrators"]`
the ping succeeds; with `["users"]` the route answers 403. -/
theorem requireGroup_administrators_witness :
    adminPingRoute (.wellFormed ⟨some ⟨some "s", some "e",
      some (.list ["users", "administrators"])⟩⟩) = .pingOk ∧
    adminPingRoute (.wellFormed ⟨some ⟨some "s", some "e",
      some (.list ["users"])⟩⟩) = .forbidden403 :=
  ⟨(requireGroup_administrators
      (.wellFormed ⟨some ⟨some "s", some "e", some (.list ["users", "administrators"])⟩⟩)
      ⟨"s", "e", ["users", "administrators"]⟩ rfl).1 (by decide),
   (requireGroup_administrators
      (.wellFormed ⟨some ⟨some "s", some "e", some (.list ["users"])⟩⟩)
      ⟨"s", "e", ["users"]⟩ rfl).2 (by decide)⟩

/-- Counterexample to C8: an ID token whose decoded `exp` is `0` — in the
past for clock reading `1` — is not purged at bootstrap: the guard
`if (exp && exp < now)` treats the falsy value `0` as "no expiry", so a
provisional identity is built and kept (here the profile fetch returned
nothing) and the storage is left untouched, where the claim demands a
purge and a null identity. -/
theorem initAuth_exp_zero_not_purged :
    (0 : Nat) < 1 ∧
    initAuth
        { idToken := some ⟨"tok", .ok { exp := some 0, sub := some "s", email := some "e" }⟩ }
        1 (.returned none)
      = { user := some (userFromClaims { exp := some 0, sub := some "s", email := some "e" }),
          storage :=
            { idToken := some ⟨"tok", .ok { exp := some 0, sub := some "s", email := some "e" }⟩ } } :=
  ⟨by decide, rfl⟩

/-- C8 (amended): at bootstrap, a stored ID token decoding to claims with
a nonzero `exp` smaller than `now` makes all tokens be purged and the
identity stay null; when the purge guard does not fire (which includes an
`exp` of `0` or no `exp` at all, both falsy in the JS guard), the
provisional identity decoded from the token is displayed and is kept when
the profile fetch throws or returns nothing — a transient API failure
never deauthenticates — while a returned profile user replaces it. -/
theorem initAuth_bootstrap (st : SessionStorage) (now : Nat) (po : ProfileOutcome)
    (t : Jwt) (c : Claims)
    (hid : st.idToken = some t) (hraw : t.raw ≠ "") (hpay : t.payload = .ok c) :
    (∀ e, c.exp = some e → e ≠ 0 → e < now →
      initAuth st now po = ⟨none, clearTokens st⟩) ∧
    (expPurge c now = false →
      ((po = .threw ∨ po = .returned none →
          initAuth st now po = ⟨some (userFromClaims c), st⟩) ∧
        (∀ u, po = .returned (some u) → initAuth st now po = ⟨some u, st⟩))) := by
  have htr : truthyTok (some t) = true := by simp [truthyTok, hraw]
  constructor
  · intro e he hne hlt
    have hp : expPurge c now = true := by simp [expPurge, he, hne, hlt]
    unfold initAuth
    simp [htr, hid, hpay, hp]
  · intro hp
    constructor
    · intro hpo
      unfold initAuth
      rcases hpo with h | h <;> subst h <;> simp [htr, hid, hpay, hp]
    · intro u hpo
      subst hpo
      unfold initAuth
      simp [htr, hid, hpay, hp]

/-- Witness for C8 (amended): a nonzero past `exp` purges; with a future
`exp`, a failed profile fetch keeps the provisional identity and a
returned user replaces it. -/
theorem initAuth_bootstrap_witness :
    initAuth { idToken := some ⟨"tok", .ok { exp := some 10 }⟩ } 100 (.returned none)
      = ⟨none, ⟨none, none, none, none, none⟩⟩ ∧
    initAuth { idToken := some ⟨"tok", .ok { exp := some 200, sub := some "s" }⟩ }
        100 .threw
      = ⟨some (userFromClaims { exp := some 200, sub := some "s" }),
         { idToken := some ⟨"tok", .ok { exp := some 200, sub := some "s" }⟩ }⟩ ∧
    initAuth { idToken := some ⟨"tok", .ok { exp := some 200, sub := some "s" }⟩ }
        100 (.returned (some ⟨some "x", none, none, .list [], none⟩))
      = ⟨some ⟨some "x", none, none, .list [], none⟩,
         { idToken := some ⟨"tok", .ok { exp := some 200, sub := some "s" }⟩ }⟩ :=
  ⟨(initAuth_bootstrap _ 100 _ ⟨"tok", .ok { exp := some 10 }⟩ { exp := some 10 }
      rfl (by decide) rfl).1 10 rfl (by decide) (by decide),
   ((initAuth_bootstrap _ 100 _ ⟨"tok", .ok { exp := some 200, sub := some "s" }⟩
      { exp := some 200, sub := some "s" } rfl (by decide) rfl).2 (by decide)).1
      (Or.inl rfl),
   ((initAuth_bootstrap _ 100 _ ⟨"tok", .ok { exp := some 200, sub := some "s" }⟩
      { exp := some 200, sub := some "s" } rfl (by decide) rfl).2 (by decide)).2
      ⟨some "x", none, none, .list [], none⟩ rfl⟩

/-- A falsy header (`null` or `""`) makes JS `a || b` yield `b`. -/
lemma jsOr_of_falsy {a : Option String} (b : String) (h : truthy a = false) :
    jsOr a b = b := by
  cases a with
  | none => rfl
  | some s =>
      have : s = "" := by simpa [truthy] using h
      simp [jsOr, this]

/-- A truthy header makes JS `a || b` yield its own value. -/
lemma jsOr_of_truthy {s : String} (b : String) (h : s ≠ "") :
    jsOr (some s) b = s := by
  simp [jsOr, h]

/-- C10: `getConfig` derives the returned `redirectUri` from the
request's `Origin` header — falling back to `Referer` — as
`<parsed origin>/callback`, and when neither header is present (or both
are empty) it answers successfully with `redirectUri = ""` rather than
failing. -/
theorem getConfig_redirectUri (urlOrigin : String → UrlOutcome)
    (c : CogSrvConfig) (originHdr refererHdr : Option String) :
    (truthy originHdr = false → truthy refererHdr = false →
      getConfig urlOrigin (some c) originHdr refererHdr =
        .ok c.domain c.clientId c.region "") ∧
    (∀ o base, originHdr = some o → o ≠ "" → urlOrigin o = .parsed base →
      getConfig urlOrigin (some c) originHdr refererHdr =
        .ok c.domain c.clientId c.region (base ++ "/callback")) ∧
    (∀ r base, truthy originHdr = false → refererHdr = some r → r ≠ "" →
      urlOrigin r = .parsed base →
      getConfig urlOrigin (some c) originHdr refererHdr =
        .ok c.domain c.clientId c.region (base ++ "/callback")) := by
  refine ⟨?_, ?_, ?_⟩
  · intro ho hr
    unfold getConfig
    rw [jsOr_of_falsy _ ho, jsOr_of_falsy _ hr]
    simp
  · intro o base ho hne hurl
    unfold getConfig
    subst ho
    rw [jsOr_of_truthy _ hne]
    simp [hne, hurl]
  · intro r base ho hr hne hurl
    unfold getConfig
    subst hr
    rw [jsOr_of_truthy _ hne, jsOr_of_falsy _ ho]
    simp [hne, hurl]

/-- Witness for C10: no headers gives `redirectUri = ""`; an `Origin`
header gives `<origin>/callback`; with no `Origin`, the `Referer` header
is parsed to its origin and used the same way. -/
theorem getConfig_redirectUri_witness :
    getConfig (fun s => .parsed s) (some ⟨"d", "c", "r"⟩) none none =
      .ok "d" "c" "r" "" ∧
    getConfig (fun s => .parsed s) (some ⟨"d", "c", "r"⟩)
        (some "https://app.example") none =
      .ok "d" "c" "r" "https://app.example/callback" ∧
    getConfig (fun s => if s = "https://app.example/page"
          then .parsed "https://app.example" else .threw)
        (some ⟨"d", "c", "r"⟩) none (some "https://app.example/page") =
      .ok "d" "c" "r" "https://app.example/callback" :=
  ⟨(getConfig_redirectUri _ _ _ _).1 (by decide) (by decide),
   (getConfig_redirectUri _ _ _ _).2.1 "https://app.example" "https://app.example"
      rfl (by decide) rfl,
   (getConfig_redirectUri _ _ _ _).2.2 "https://app.example/page" "https://app.example"
      (by decide) rfl (by decide) (by decide)⟩

end PkceApp
